import Mathlib

/-!
Verification of the DayZ map tile downloader (`src/main.py`).

The embedding models the sequential data flow of the program: the filesystem
as an association list from paths to byte lists, the remote tile source as a
function from URLs to responses, and each source function as a Lean function
over those models. Machine integers do not overflow in the modelled ranges
(Python integers are unbounded), so `Nat`/`Int` are used directly.
-/

namespace DayZ

/-- Bytes of a file, modelled as a list of naturals. -/
abbrev Bytes := List Nat

/-- The local filesystem: an association list from file paths to contents.
Directories are not modelled separately; `os.makedirs(..., exist_ok=True)`
is idempotent and creates no files. -/
abbrev FS := List (String × Bytes)

/-- An HTTP response as observed by `download_tile`: the final status,
the declared content type (aiohttp's `response.content_type`), and the body. -/
structure Response where
  status : Nat
  contentType : String
  body : Bytes
  deriving DecidableEq, Repr

/-- The remote tile source: a function from URLs to responses. -/
abbrev Net := String → Response

/-- Module constant `MAX_CONCURRENT = 64` (main.py line 14). -/
def MAX_CONCURRENT : Nat := 64

/-- Per-resolution cache directory,
`f"{target_dir}/{game_version}_{map_type}_{resolution}x{resolution}"`
(main.py line 28). -/
def outDirOf (targetDir gameVersion mapType : String) (resolution : Nat) : String :=
  targetDir ++ "/" ++ gameVersion ++ "_" ++ mapType ++ "_"
    ++ toString resolution ++ "x" ++ toString resolution

/-- Local cache path of one tile:
`os.path.join(out_dir, str(x))` then `os.path.join(x_dir, f"{y}.webp")`
(main.py lines 32 and 35). -/
def tilePath (targetDir gameVersion mapType : String) (resolution x y : Nat) : String :=
  outDirOf targetDir gameVersion mapType resolution
    ++ "/" ++ toString x ++ "/" ++ toString y ++ ".webp"

/-- Remote URL of one tile (main.py lines 39-42). -/
def tileUrl (gameVersion mapType : String) (resolution x y : Nat) : String :=
  "https://static.xam.nu/dayz/maps/chernarusplus/" ++ gameVersion ++ "/"
    ++ mapType ++ "/" ++ toString resolution ++ "/"
    ++ toString x ++ "/" ++ toString y ++ ".webp"

/-- Failure of one tile fetch. `httpStatus` models the exception of
aiohttp's `raise_for_status()`, which raises exactly when the response
status is 400 or higher; `invalidContentType` models the `RuntimeError`
raised at main.py lines 48-50. -/
inductive FetchError where
  | httpStatus (status : Nat)
  | invalidContentType (x y : Nat) (contentType : String)
  deriving DecidableEq, Repr

/-- Successful outcome of one tile fetch. -/
inductive FetchOutcome where
  | skipped
  | completed
  deriving DecidableEq, Repr

/-- Result of running one tile fetch: the outcome or error, the filesystem
afterwards, and the number of network GET requests performed. -/
abbrev FetchResult := Except FetchError FetchOutcome × FS × Nat

/-- One tile fetch, `download_tile` (main.py lines 18-54): derive the cache
path; if a file already exists there, return without touching the network;
otherwise GET the tile URL, raise for status >= 400, raise for a declared
content type other than `image/webp`, and only then write the body to the
cache path. -/
def download_tile (net : Net) (fs : FS) (targetDir gameVersion mapType : String)
    (resolution x y : Nat) : FetchResult :=
  let out_path := tilePath targetDir gameVersion mapType resolution x y
  if (fs.lookup out_path).isSome then
    (.ok .skipped, fs, 0)
  else
    let r := net (tileUrl gameVersion mapType resolution x y)
    if 400 ≤ r.status then
      (.error (.httpStatus r.status), fs, 1)
    else if r.contentType ≠ "image/webp" then
      (.error (.invalidContentType x y r.contentType), fs, 1)
    else
      (.ok .completed, (out_path, r.body) :: fs, 1)

/-- The grid coordinates enumerated by `download_all_tiles`
(main.py lines 103-104): `for x in range(grid_size) for y in range(grid_size)`,
x outer, y inner. -/
def gridCoords (gridSize : Nat) : List (Nat × Nat) :=
  (List.range gridSize).flatMap fun x => (List.range gridSize).map fun y => (x, y)

/-- Sequential execution of the per-coordinate fetch tasks with fail-fast
aggregation (main.py lines 94-115): on the first failure the remaining
tasks are cancelled (run no further) and the original error propagates. -/
def runTiles (net : Net) (targetDir gameVersion mapType : String) (resolution : Nat) :
    List (Nat × Nat) → FS → Except FetchError Unit × FS × Nat
  | [], fs => (.ok (), fs, 0)
  | (x, y) :: rest, fs =>
    match download_tile net fs targetDir gameVersion mapType resolution x y with
    | (.error e, fs', n) => (.error e, fs', n)
    | (.ok _, fs', n) =>
      let r := runTiles net targetDir gameVersion mapType resolution rest fs'
      (r.1, r.2.1, n + r.2.2)

/-- The Grid Scheduler, `download_all_tiles` (main.py lines 82-115):
`grid_size = 2 ** resolution`, then one task per coordinate. -/
def download_all_tiles (net : Net) (gameVersion mapType : String) (resolution : Nat)
    (dir : String) (fs : FS) : Except FetchError Unit × FS × Nat :=
  runTiles net dir gameVersion mapType resolution (gridCoords (2 ^ resolution)) fs

/-- Failure of atlas composition: `Image.open` on an absent tile file raises
(main.py line 74); the spec names this `MissingTileError`. -/
inductive GlueError where
  | missingTile (path : String)
  deriving DecidableEq, Repr

/-- One `atlas.paste(tile, (x * 256, y * 256), tile)` call (main.py line 75):
the decoded tile, the pixel offset, and the mask argument (the third
positional argument of `paste`, the tile itself, whose alpha channel PIL
uses as the mask). -/
structure PasteOp where
  tile : Bytes
  offset : Nat × Nat
  mask : Bytes
  deriving DecidableEq, Repr

/-- Observable effects of one `glue_tiles` run: the canvas dimensions, the
paste calls performed in order, and the atlas paths saved. -/
structure GlueTrace where
  canvasWidth : Nat
  canvasHeight : Nat
  pastes : List PasteOp
  savedAtlases : List String
  deriving DecidableEq, Repr

/-- Path of a tile file as read by the composer,
`os.path.join(tiles_dir, str(x), f"{y}.webp")` (main.py line 73). -/
def glueTilePath (tilesDir : String) (x y : Nat) : String :=
  tilesDir ++ "/" ++ toString x ++ "/" ++ toString y ++ ".webp"

/-- The composer's nested loop (main.py lines 71-76): open each tile in
order, failing on the first absent file, and paste it at
`(x * 256, y * 256)` with the tile itself as mask. Returns the outcome and
the paste calls performed before any failure. -/
def glueLoop (fs : FS) (tilesDir : String) :
    List (Nat × Nat) → Except GlueError Unit × List PasteOp
  | [] => (.ok (), [])
  | (x, y) :: rest =>
    match fs.lookup (glueTilePath tilesDir x y) with
    | none => (.error (.missingTile (glueTilePath tilesDir x y)), [])
    | some tile =>
      let r := glueLoop fs tilesDir rest
      (r.1, ⟨tile, (x * 256, y * 256), tile⟩ :: r.2)

/-- Output atlas path,
`os.path.join(out_dir, f"{map_type}_{game_version}_{grid_size}x{grid_size}.webp")`
(main.py line 62). -/
def atlasPath (outDir gameVersion mapType : String) (gridSize : Nat) : String :=
  outDir ++ "/" ++ mapType ++ "_" ++ gameVersion ++ "_"
    ++ toString gridSize ++ "x" ++ toString gridSize ++ ".webp"

/-- The Atlas Composer, `glue_tiles` (main.py lines 57-79): a canvas of
`grid_size * 256` pixels in each dimension with `grid_size = 2 ** resolution`,
the nested paste loop, and a single `atlas.save` reached only when every
tile file was present. -/
def glue_tiles (fs : FS) (tilesDir outDir gameVersion mapType : String)
    (resolution : Nat) : Except GlueError Unit × GlueTrace :=
  let gridSize := 2 ^ resolution
  let r := glueLoop fs tilesDir (gridCoords gridSize)
  match r.1 with
  | .error e =>
    (.error e, ⟨gridSize * 256, gridSize * 256, r.2, []⟩)
  | .ok _ =>
    (.ok (), ⟨gridSize * 256, gridSize * 256, r.2,
      [atlasPath outDir gameVersion mapType gridSize]⟩)

/-- Diagnostic message of the missing-resolution-selector exit
(main.py lines 171-173). -/
def missingSelectorMsg : String := "❌ Нужно указать --resolution или --resolution-range"

/-- Python truthiness of `args.resolution` (an `int` or `None`):
`not args.resolution` is true for `None` and for `0`. -/
def pyTruthyOptInt : Option Int → Bool
  | none => false
  | some n => n != 0

/-- Python truthiness of `args.resolution_range`: `None` when absent,
otherwise a two-element list, which is always truthy. -/
def pyTruthyOptRange : Option (Int × Int) → Bool
  | none => false
  | some _ => true

/-- Python `range(a, b)` over unbounded integers with step 1. -/
def pyRange (a b : Int) : List Int :=
  (List.range (b - a).toNat).map fun i : Nat => a + (i : Int)

/-- Resolution selection in `main` (main.py lines 170-181): exit with a
diagnostic when neither selector is truthy; otherwise use
`range(start, end + 1)` when a range was given, else the single resolution.
The `none` fallback in the last branch is unreachable: the guard already
ensured `resolution` is a truthy integer there. -/
def mainResolutions (resolution : Option Int) (resolutionRange : Option (Int × Int)) :
    Except String (List Int) :=
  if !pyTruthyOptInt resolution && !pyTruthyOptRange resolutionRange then
    .error missingSelectorMsg
  else
    match resolutionRange with
    | some (s, e) => .ok (pyRange s (e + 1))
    | none => .ok [resolution.getD 0]

/-- Tests whether file path `p` lies strictly under directory `dir`,
that is, whether `dir ++ "/"` is a prefix of `p` (character-wise). -/
def isUnderDir (dir p : String) : Bool :=
  (dir ++ "/").data.isPrefixOf p.data

/-- `shutil.rmtree(path)`: removes the directory tree rooted at `path`,
that is, every file whose path lies under `path`. -/
def rmtree (fs : FS) (path : String) : FS :=
  fs.filter fun entry => !isUnderDir path entry.1

/-- The Resolution Driver's cleanup step after a successful composition,
`shutil.rmtree(args.tmp_dir)` (main.py line 198): the tree removed is the
whole tmp/cache root directory. -/
def driverCleanup (fs : FS) (tmpDir : String) : FS :=
  rmtree fs tmpDir

/-- Row-major enumeration of an n-by-m grid, stated the way the spec
describes it: the i-th coordinate is `(i / m, i % m)`. This is the
spec-side characterization that `gridCoords` is compared against. -/
def rowMajor (n m : Nat) : List (Nat × Nat) :=
  (List.range (n * m)).map fun i => (i / m, i % m)

theorem range_flatMap_rowMajor (n m : Nat) :
    ((List.range n).flatMap fun x => (List.range m).map fun y => (x, y)) =
    (List.range (n * m)).map fun i => (i / m, i % m) := by
  induction n with
  | zero => simp
  | succ k ih =>
    rw [List.range_succ, List.flatMap_append, ih, Nat.succ_mul, List.range_add,
      List.map_append, List.map_map]
    congr 1
    · simp only [List.flatMap_cons, List.flatMap_nil, List.append_nil]
      apply List.map_congr_left
      intro y hy
      rw [List.mem_range] at hy
      simp only [Function.comp]
      rw [Nat.add_comm (k * m) y,
        Nat.add_mul_div_right _ _ (Nat.lt_of_le_of_lt (Nat.zero_le y) hy),
        Nat.add_mul_mod_self_right, Nat.div_eq_of_lt hy, Nat.mod_eq_of_lt hy,
        Nat.zero_add]

theorem rowMajorInj (m : Nat) : Function.Injective fun i : Nat => (i / m, i % m) := by
  intro a b h
  have h1 : a / m = b / m := congrArg Prod.fst h
  have h2 : a % m = b % m := congrArg Prod.snd h
  calc a = m * (a / m) + a % m := (Nat.div_add_mod a m).symm
    _ = m * (b / m) + b % m := by rw [h1, h2]
    _ = b := Nat.div_add_mod b m

theorem gridCoords_eq_rowMajor (n : Nat) : gridCoords n = rowMajor n n := by
  rw [gridCoords, rowMajor, range_flatMap_rowMajor]

theorem gridCoords_nodup (n : Nat) : (gridCoords n).Nodup := by
  rw [gridCoords, range_flatMap_rowMajor]
  exact (List.nodup_range (n * n)).map (rowMajorInj n)

theorem gridCoords_mem (n : Nat) (x y : Nat) :
    (x, y) ∈ gridCoords n ↔ x < n ∧ y < n := by
  simp only [gridCoords, List.mem_flatMap, List.mem_map, List.mem_range]
  constructor
  · rintro ⟨a, ha, b, hb, hxy⟩
    cases hxy
    exact ⟨ha, hb⟩
  · rintro ⟨hx, hy⟩
    exact ⟨x, hx, y, hy, rfl⟩

theorem gridCoords_length (n : Nat) : (gridCoords n).length = n * n := by
  rw [gridCoords, range_flatMap_rowMajor, List.length_map, List.length_range]

/-- Claim C4: for every valid resolution r, the Grid Scheduler launches exactly
(2^r)² fetch tasks — `download_all_tiles` builds one task per element of
`gridCoords (2 ^ r)` — one per distinct coordinate (x, y) with
0 ≤ x, y < 2^r, enumerated in row-major order with x as the outer loop and
y as the inner loop. -/
theorem grid_scheduler_task_enumeration (r : Nat) :
    (gridCoords (2 ^ r)).length = (2 ^ r) ^ 2 ∧
    (gridCoords (2 ^ r)).Nodup ∧
    (∀ x y : Nat, (x, y) ∈ gridCoords (2 ^ r) ↔ x < 2 ^ r ∧ y < 2 ^ r) ∧
    gridCoords (2 ^ r) = rowMajor (2 ^ r) (2 ^ r) := by
  refine ⟨?_, gridCoords_nodup _, gridCoords_mem _, gridCoords_eq_rowMajor _⟩
  rw [gridCoords_length, Nat.pow_two]

/-- Claim C2: the code treats `--resolution 0` (with no range) as the
missing-selector user error — `not args.resolution` is true for the Python
integer 0 — and exits with the diagnostic, although per the spec a
resolution of 0 is valid and would run the 1×1 grid (2^0 = 1); a nonzero
single resolution is accepted, and omitting both selectors errors as the
spec says. -/
theorem resolution_zero_rejected :
    mainResolutions (some 0) none = .error missingSelectorMsg ∧
    mainResolutions none none = .error missingSelectorMsg ∧
    mainResolutions (some 1) none = .ok [1] ∧
    (gridCoords (2 ^ 0)).length = 1 :=
  ⟨rfl, rfl, rfl, rfl⟩

/-- Claim C10: when both `--resolution` and `--resolution-range` are supplied,
the range wins: the run covers every resolution from the range's start to
its end inclusive, and the single-resolution value (whatever it is) does
not affect the result. -/
theorem range_takes_precedence (r s e : Int) :
    mainResolutions (some r) (some (s, e)) = .ok (pyRange s (e + 1)) ∧
    mainResolutions (some r) (some (s, e)) = mainResolutions none (some (s, e)) ∧
    ∀ k : Int, k ∈ pyRange s (e + 1) ↔ s ≤ k ∧ k ≤ e := by
  refine ⟨?_, ?_, ?_⟩
  · simp [mainResolutions, pyTruthyOptRange]
  · simp [mainResolutions, pyTruthyOptRange]
  · intro k
    rw [pyRange, List.mem_map]
    constructor
    · rintro ⟨i, hi, rfl⟩
      rw [List.mem_range] at hi
      omega
    · rintro ⟨h1, h2⟩
      refine ⟨(k - s).toNat, ?_, ?_⟩
      · rw [List.mem_range]
        omega
      · omega

theorem download_tile_cached (net : Net) (fs : FS) (dir gv mt : String)
    (res x y : Nat) (h : (fs.lookup (tilePath dir gv mt res x y)).isSome = true) :
    download_tile net fs dir gv mt res x y = (.ok .skipped, fs, 0) := by
  simp [download_tile, h]

theorem runTiles_all_cached (net : Net) (dir gv mt : String) (res : Nat)
    (l : List (Nat × Nat)) (fs : FS)
    (h : ∀ c ∈ l, (fs.lookup (tilePath dir gv mt res c.1 c.2)).isSome = true) :
    runTiles net dir gv mt res l fs = (.ok (), fs, 0) := by
  induction l with
  | nil => rfl
  | cons c rest ih =>
    obtain ⟨x, y⟩ := c
    have hc := h (x, y) (List.mem_cons_self _ _)
    have hrest := fun c hc' => h c (List.mem_cons_of_mem _ hc')
    simp [runTiles, download_tile_cached net fs dir gv mt res x y hc, ih hrest]

/-- Claim C3: a tile whose cache file exists is skipped with no network request
and no filesystem change, and re-running the Grid Scheduler against a cache
fully populated for the resolution performs zero network requests, leaves
the cache unchanged, and succeeds. -/
theorem cached_tiles_skipped_and_rerun_no_network
    (net : Net) (fs : FS) (dir gv mt : String) (res : Nat)
    (hfull : ∀ x y : Nat, x < 2 ^ res → y < 2 ^ res →
      (fs.lookup (tilePath dir gv mt res x y)).isSome = true) :
    (∀ x y : Nat, (fs.lookup (tilePath dir gv mt res x y)).isSome = true →
      download_tile net fs dir gv mt res x y = (.ok .skipped, fs, 0)) ∧
    download_all_tiles net gv mt res dir fs = (.ok (), fs, 0) := by
  refine ⟨fun x y h => download_tile_cached net fs dir gv mt res x y h, ?_⟩
  refine runTiles_all_cached net dir gv mt res _ fs fun c hc => ?_
  obtain ⟨x, y⟩ := c
  rw [gridCoords_mem] at hc
  exact hfull x y hc.1 hc.2

/-- Concrete cache directory name used by the witnesses. -/
def tmpW : String := "tmp"

/-- Concrete game version used by the witnesses. -/
def gvW : String := "1.27"

/-- Concrete map type used by the witnesses. -/
def mtW : String := "satellite"

/-- Concrete output directory used by the witnesses. -/
def mapsW : String := "maps"

/-- A remote source that always answers 200 with a webp body. -/
def netOkW : Net := fun _ => ⟨200, "image/webp", [1]⟩

/-- A cache already holding the single tile of resolution 0. -/
def fsFullW : FS := [(tilePath tmpW gvW mtW 0 0 0, [5])]

theorem cached_rerun_witness :
    download_all_tiles netOkW gvW mtW 0 tmpW fsFullW = (.ok (), fsFullW, 0) :=
  (cached_tiles_skipped_and_rerun_no_network netOkW fsFullW tmpW gvW mtW 0
    (fun x y hx hy => by
      have hx0 : x = 0 := Nat.lt_one_iff.mp hx
      have hy0 : y = 0 := Nat.lt_one_iff.mp hy
      subst hx0
      subst hy0
      rfl)).2

/-- Claim C5, amended: for a tile that is not cached, the fetch fails with an
HTTP-status error exactly when the response status is 400 or higher (the
condition of aiohttp's `raise_for_status`), fails with the
invalid-content-type error exactly when the status is below 400 and the
declared content type is not `image/webp`, and in every failure case the
filesystem is unchanged (no cache file written). -/
theorem uncached_fetch_error_conditions
    (net : Net) (fs : FS) (dir gv mt : String) (res x y : Nat)
    (hnc : (fs.lookup (tilePath dir gv mt res x y)).isSome = false) :
    (download_tile net fs dir gv mt res x y =
        (.error (.httpStatus (net (tileUrl gv mt res x y)).status), fs, 1) ↔
      400 ≤ (net (tileUrl gv mt res x y)).status) ∧
    (download_tile net fs dir gv mt res x y =
        (.error (.invalidContentType x y (net (tileUrl gv mt res x y)).contentType), fs, 1) ↔
      (net (tileUrl gv mt res x y)).status < 400 ∧
        (net (tileUrl gv mt res x y)).contentType ≠ "image/webp") ∧
    (∀ e : FetchError, (download_tile net fs dir gv mt res x y).1 = .error e →
      (download_tile net fs dir gv mt res x y).2.1 = fs) := by
  by_cases h1 : 400 ≤ (net (tileUrl gv mt res x y)).status
  · simp [download_tile, hnc, h1, Nat.not_lt.mpr h1]
  · by_cases h2 : (net (tileUrl gv mt res x y)).contentType = "image/webp"
    · simp [download_tile, hnc, h1, h2]
    · simp [download_tile, hnc, h1, h2, Nat.lt_of_not_le h1]

/-- A remote source that always answers 404. -/
def net404W : Net := fun _ => ⟨404, "text/html", []⟩

theorem uncached_fetch_witness :
    download_tile net404W [] tmpW gvW mtW 0 0 0 = (.error (.httpStatus 404), [], 1) :=
  (uncached_fetch_error_conditions net404W [] tmpW gvW mtW 0 0 0 rfl).1.mpr (by decide)

/-- A remote source that always answers 304 with a webp body: 304 is not a
2xx status, yet it is below aiohttp's `raise_for_status` threshold. -/
def net304W : Net := fun _ => ⟨304, "image/webp", [1, 2]⟩

/-- Claim C5 counterexample: a response with status 304 — not 2xx — does not make
the fetch fail with an HTTP-status error; `raise_for_status` only raises
for 400 and above, so the fetch completes and caches the body. -/
theorem fetch_304_completes :
    (net304W (tileUrl gvW mtW 0 0 0)).status = 304 ∧
    ¬(200 ≤ (net304W (tileUrl gvW mtW 0 0 0)).status ∧
        (net304W (tileUrl gvW mtW 0 0 0)).status < 300) ∧
    (download_tile net304W [] tmpW gvW mtW 0 0 0).1 = .ok .completed :=
  ⟨rfl, by decide, rfl⟩

theorem isUnderDir_append (dir rest : String) :
    isUnderDir dir (dir ++ "/" ++ rest) = true := by
  rw [isUnderDir, String.data_append, List.isPrefixOf_iff_prefix]
  exact List.prefix_append _ _

theorem tilePath_under_root (dir gv mt : String) (res x y : Nat) :
    isUnderDir dir (tilePath dir gv mt res x y) = true := by
  have h : tilePath dir gv mt res x y =
      dir ++ "/" ++ (gv ++ "_" ++ mt ++ "_" ++ toString res ++ "x" ++ toString res
        ++ "/" ++ toString x ++ "/" ++ toString y ++ ".webp") := by
    simp [tilePath, outDirOf, String.append_assoc]
  rw [h]
  exact isUnderDir_append dir _

/-- A cache holding one tile of resolution 0 and one tile of resolution 1
under the same cache root. -/
def fsTwoResW : FS :=
  [(tilePath tmpW gvW mtW 0 0 0, [1]), (tilePath tmpW gvW mtW 1 0 0, [2])]

/-- Claim C6 counterexample: running the cleanup step after composing resolution
0 deletes the cached tile of resolution 1 as well — `shutil.rmtree` is
applied to the cache root `args.tmp_dir`, not to the per-resolution
directory. -/
theorem cleanup_deletes_other_resolution :
    fsTwoResW.lookup (tilePath tmpW gvW mtW 1 0 0) = some [2] ∧
    (driverCleanup fsTwoResW tmpW).lookup (tilePath tmpW gvW mtW 1 0 0) = none :=
  ⟨rfl, rfl⟩

/-- Claim C6, amended: the cleanup step removes the entire cache root directory
tree — an entry survives it exactly when it does not lie under the root —
and every tile path of every resolution lies under the root, so tiles of
other resolutions present under the cache root are deleted along with the
just-composed resolution's directory. Only files outside the cache root
are untouched. -/
theorem cleanup_removes_cache_root (fs : FS) (tmpDir gv mt : String)
    (res x y : Nat) (entry : String × Bytes) :
    (entry ∈ driverCleanup fs tmpDir ↔ entry ∈ fs ∧ isUnderDir tmpDir entry.1 = false) ∧
    isUnderDir tmpDir (tilePath tmpDir gv mt res x y) = true := by
  refine ⟨?_, tilePath_under_root tmpDir gv mt res x y⟩
  simp [driverCleanup, rmtree, List.mem_filter]

theorem glueLoop_missing (fs : FS) (d : String) (l : List (Nat × Nat))
    (h : ∃ c ∈ l, fs.lookup (glueTilePath d c.1 c.2) = none) :
    ∃ p, (glueLoop fs d l).1 = .error (.missingTile p) := by
  induction l with
  | nil => simp at h
  | cons c rest ih =>
    obtain ⟨x, y⟩ := c
    rcases hx : fs.lookup (glueTilePath d x y) with _ | tile
    · exact ⟨glueTilePath d x y, by simp [glueLoop, hx]⟩
    · obtain ⟨c', hc', hnone⟩ := h
      rcases List.mem_cons.mp hc' with hhead | hmem
      · rw [hhead] at hnone
        rw [hnone] at hx
        cases hx
      · obtain ⟨p, hp⟩ := ih ⟨c', hmem, hnone⟩
        exact ⟨p, by simp [glueLoop, hx, hp]⟩

/-- Claim C7: whenever an expected tile file for the resolution's grid is absent
from the cache directory, the Atlas Composer fails with a missing-tile
error and saves no output atlas (so no blank tile is ever substituted). -/
theorem composer_missing_tile_fails
    (fs : FS) (tilesDir outDir gv mt : String) (res : Nat)
    (h : ∃ x y : Nat, x < 2 ^ res ∧ y < 2 ^ res ∧
      fs.lookup (glueTilePath tilesDir x y) = none) :
    (∃ p, (glue_tiles fs tilesDir outDir gv mt res).1 = .error (.missingTile p)) ∧
    (glue_tiles fs tilesDir outDir gv mt res).2.savedAtlases = [] := by
  obtain ⟨x, y, hx, hy, hnone⟩ := h
  obtain ⟨p, hp⟩ := glueLoop_missing fs tilesDir (gridCoords (2 ^ res))
    ⟨(x, y), (gridCoords_mem _ x y).mpr ⟨hx, hy⟩, hnone⟩
  constructor
  · exact ⟨p, by simp [glue_tiles, hp]⟩
  · simp [glue_tiles, hp]

/-- Cache directory of resolution 0, as `main` passes it to `glue_tiles`. -/
def tilesDirW : String := outDirOf tmpW gvW mtW 0

theorem composer_missing_witness :
    (∃ p, (glue_tiles [] tilesDirW mapsW gvW mtW 0).1 = .error (.missingTile p)) ∧
    (glue_tiles [] tilesDirW mapsW gvW mtW 0).2.savedAtlases = [] :=
  composer_missing_tile_fails [] tilesDirW mapsW gvW mtW 0
    ⟨0, 0, Nat.zero_lt_one, Nat.zero_lt_one, rfl⟩

theorem glueLoop_all_present (fs : FS) (d : String) (t : Nat → Nat → Bytes)
    (l : List (Nat × Nat))
    (h : ∀ c ∈ l, fs.lookup (glueTilePath d c.1 c.2) = some (t c.1 c.2)) :
    glueLoop fs d l =
      (.ok (), l.map fun c => ⟨t c.1 c.2, (c.1 * 256, c.2 * 256), t c.1 c.2⟩) := by
  induction l with
  | nil => rfl
  | cons c rest ih =>
    obtain ⟨x, y⟩ := c
    have hc := h (x, y) (List.mem_cons_self _ _)
    have hrest := fun c hc' => h c (List.mem_cons_of_mem _ hc')
    simp [glueLoop, hc, ih hrest]

/-- Claim C8: over a cache holding every tile of the resolution's grid, the Atlas
Composer succeeds with a canvas of exactly (2^r · 256) × (2^r · 256) pixels
(tile size 256), pastes each tile at pixel offset (x·256, y·256) following
the task enumeration (increasing x outer, increasing y inner) with the tile
itself passed as the paste mask (PIL then uses its alpha channel), and
saves the canvas exactly once, at the atlas path. -/
theorem composer_canvas_and_pastes
    (fs : FS) (tilesDir outDir gv mt : String) (res : Nat) (t : Nat → Nat → Bytes)
    (h : ∀ x y : Nat, x < 2 ^ res → y < 2 ^ res →
      fs.lookup (glueTilePath tilesDir x y) = some (t x y)) :
    glue_tiles fs tilesDir outDir gv mt res =
      (.ok (), ⟨2 ^ res * 256, 2 ^ res * 256,
        (gridCoords (2 ^ res)).map fun c => ⟨t c.1 c.2, (c.1 * 256, c.2 * 256), t c.1 c.2⟩,
        [atlasPath outDir gv mt (2 ^ res)]⟩) ∧
    ((gridCoords (2 ^ res)).map fun c =>
        (⟨t c.1 c.2, (c.1 * 256, c.2 * 256), t c.1 c.2⟩ : PasteOp)) =
      (rowMajor (2 ^ res) (2 ^ res)).map fun c =>
        (⟨t c.1 c.2, (c.1 * 256, c.2 * 256), t c.1 c.2⟩ : PasteOp) := by
  have hl := glueLoop_all_present fs tilesDir t (gridCoords (2 ^ res)) fun c hc => by
    obtain ⟨x, y⟩ := c
    rw [gridCoords_mem] at hc
    exact h x y hc.1 hc.2
  refine ⟨?_, by rw [gridCoords_eq_rowMajor]⟩
  simp [glue_tiles, hl]

/-- A cache holding the single tile (bytes `[7]`) of resolution 0. -/
def fsOneTileW : FS := [(glueTilePath tilesDirW 0 0, [7])]

theorem composer_canvas_witness :
    glue_tiles fsOneTileW tilesDirW mapsW gvW mtW 0 =
      (.ok (), ⟨256, 256, [⟨[7], (0, 0), [7]⟩], [atlasPath mapsW gvW mtW 1]⟩) :=
  (composer_canvas_and_pastes fsOneTileW tilesDirW mapsW gvW mtW 0 (fun _ _ => [7])
    (fun x y hx hy => by
      have hx0 : x = 0 := Nat.lt_one_iff.mp hx
      have hy0 : y = 0 := Nat.lt_one_iff.mp hy
      subst hx0
      subst hy0
      rfl)).1

end DayZ
